import Mathlib

/-!
Verification of the Stacksio PIR workflow core against its specification.

The definitions below are a shallow embedding of the TypeScript sources:
the data model from src/types/index.ts, the repository operations from
src/integrations/firebase/repositories (PIR, question, tag, attachment
repositories), the UI-level status-change handler and permission predicates
from src/components/pir/PIRDetail.tsx, the cloud-function notification
recipient resolution from functions/src (onPIRStatusChange), and the user
session loader from src/store/userSlice.ts.

Firestore documents are modelled as association lists from id to record;
updateDoc is field-wise merge, arrayUnion is idempotent list union, and
serverTimestamp is an explicit logical clock value passed as a parameter.
-/

namespace PIRWorkflow

/-- UserRole enum from src/types/index.ts. -/
inductive UserRole where
  | admin
  | requester
  | responder
  | reviewer
  deriving DecidableEq, Repr

/-- PIRStatus enum from src/types/index.ts. -/
inductive PIRStatus where
  | draft
  | requested
  | submitted
  | reviewed
  | accepted
  | rejected
  deriving DecidableEq, Repr

/-- User record from src/types/index.ts. -/
structure User where
  id : String
  email : String
  displayName : String
  role : UserRole
  department : Option String := none
  deriving DecidableEq, Repr

/-- PIR record from src/types/index.ts. Timestamps are logical clock
values (Nat); optional fields are Option. -/
structure PIR where
  id : String
  title : String
  description : String
  status : PIRStatus
  requesterId : String
  requesterName : String
  assignedResponderId : Option String := none
  assignedResponderName : Option String := none
  reviewerId : Option String := none
  reviewerName : Option String := none
  productName : String
  productCategory : String
  createdAt : Nat
  updatedAt : Nat
  submittedAt : Option Nat := none
  reviewedAt : Option Nat := none
  acceptedAt : Option Nat := none
  rejectedAt : Option Nat := none
  completionDeadline : Option Nat := none
  tags : List String := []
  questionIds : List String := []
  attachmentIds : List String := []
  comments : Option String := none
  reviewNotes : Option String := none
  deriving DecidableEq, Repr

/-- Question record from src/types/index.ts. -/
structure Question where
  id : String
  pirId : String
  text : String
  category : String
  required : Bool
  createdAt : Nat
  updatedAt : Nat
  createdBy : String
  attachmentIds : List String := []
  deriving DecidableEq, Repr

/-- Tag record from src/types/index.ts. -/
structure Tag where
  id : String
  name : String
  category : Option String := none
  color : Option String := none
  deriving DecidableEq, Repr

/-- Attachment parent discriminator from src/types/index.ts
(parentType: pir | question | answer). -/
inductive ParentType where
  | pir
  | question
  | answer
  deriving DecidableEq, Repr

/-- Attachment record from src/types/index.ts. -/
structure Attachment where
  id : String
  fileName : String
  fileType : String
  fileSize : Nat
  uploadedBy : String
  uploadedAt : Nat
  parentId : String
  parentType : ParentType
  downloadUrl : String
  deriving DecidableEq, Repr

/-- A Firestore collection: an association list from document id to data. -/
abbrev Store (α : Type) : Type := List (String × α)

/-- getDoc: first binding for the id, if any. -/
def Store.lookup {α : Type} (s : Store α) (id : String) : Option α :=
  match s with
  | [] => none
  | (k, v) :: rest => if k = id then some v else Store.lookup rest id

/-- updateDoc / setDoc on an existing id: replace the bound value. -/
def Store.setEntry {α : Type} (s : Store α) (id : String) (v : α) : Store α :=
  match s with
  | [] => []
  | (k, w) :: rest =>
      if k = id then (k, v) :: rest else (k, w) :: Store.setEntry rest id v

/-- deleteDoc: remove the binding for the id (document ids are unique, so
dropping every binding with the id is the document delete). -/
def Store.removeEntry {α : Type} (s : Store α) (id : String) : Store α :=
  s.filter (fun kv => !(kv.1 == id))

/-- addDoc: append a fresh document (Firestore assigns the id). -/
def Store.addEntry {α : Type} (s : Store α) (id : String) (v : α) : Store α :=
  s ++ [(id, v)]

/-- Firestore arrayUnion: append the element only when not yet present. -/
def arrayUnion (xs : List String) (x : String) : List String :=
  if x ∈ xs then xs else xs ++ [x]

/-- Errors surfaced by the repository layer. -/
inductive RepoError where
  | notFound
  | dependencyFailure
  deriving DecidableEq, Repr

/-- The additionalData partial update accepted by updatePIRStatus.  The only
call site (handleStatusChange in PIRDetail.tsx) ever passes reviewerId and
reviewerName, so the embedding enumerates exactly those two optional
fields; a field left none is absent from the update and the stored value
is preserved by the updateDoc merge. -/
structure PIRPartial where
  reviewerId : Option String := none
  reviewerName : Option String := none
  deriving DecidableEq, Repr

/-- The field-wise effect of updatePIRStatus (attachmentRepository.ts,
pirRepository section, lines 479-531) on the stored PIR document: the
update object is status, updatedAt = serverTimestamp, the spread of
additionalData, plus the status-specific timestamp added by the switch. -/
def applyStatusUpdate (p : PIR) (status : PIRStatus) (extra : PIRPartial)
    (now : Nat) : PIR :=
  let base := { p with
    status := status
    updatedAt := now
    reviewerId := match extra.reviewerId with
      | some v => some v
      | none => p.reviewerId
    reviewerName := match extra.reviewerName with
      | some v => some v
      | none => p.reviewerName }
  match status with
  | PIRStatus.submitted => { base with submittedAt := some now }
  | PIRStatus.reviewed => { base with reviewedAt := some now }
  | PIRStatus.accepted => { base with acceptedAt := some now }
  | PIRStatus.rejected => { base with rejectedAt := some now }
  | _ => base

/-- updatePIRStatus from the PIR repository: fetch the document, fail with
NotFound when absent, otherwise merge the status update and the
status-specific timestamp into the stored document and return it.  The
function performs no transition-table, self-transition or permission
validation. -/
def updatePIRStatus (store : Store PIR) (id : String) (status : PIRStatus)
    (extra : PIRPartial) (now : Nat) :
    Except RepoError (Store PIR × PIR) :=
  match Store.lookup store id with
  | none => Except.error RepoError.notFound
  | some p =>
      let p' := applyStatusUpdate p status extra now
      Except.ok (Store.setEntry store id p', p')

/-- The allowed-transition table of spec section 4.1. -/
def validTransition : PIRStatus → PIRStatus → Bool
  | PIRStatus.draft, PIRStatus.requested => true
  | PIRStatus.requested, PIRStatus.submitted => true
  | PIRStatus.submitted, PIRStatus.reviewed => true
  | PIRStatus.reviewed, PIRStatus.accepted => true
  | PIRStatus.reviewed, PIRStatus.rejected => true
  | _, _ => false

/-- The actor-permission predicate of the spec section 4.1 table, written
from the spec's words (role R, identity U, PIR P). -/
def specPermittedActor (u : User) (p : PIR) (tgt : PIRStatus) : Bool :=
  match p.status, tgt with
  | PIRStatus.draft, PIRStatus.requested =>
      u.role = UserRole.admin ∨ u.id = p.requesterId
  | PIRStatus.requested, PIRStatus.submitted =>
      u.role = UserRole.admin ∨ some u.id = p.assignedResponderId
  | PIRStatus.submitted, PIRStatus.reviewed =>
      u.role = UserRole.admin ∨ u.role = UserRole.reviewer
  | PIRStatus.reviewed, PIRStatus.accepted =>
      u.role = UserRole.admin ∨ some u.id = p.reviewerId
  | PIRStatus.reviewed, PIRStatus.rejected =>
      u.role = UserRole.admin ∨ some u.id = p.reviewerId
  | _, _ => false

/-- Errors surfaced by the UI-level status-change handler in
PIRDetail.tsx: its own permission throw, or an error propagated from the
repository call. -/
inductive UIError where
  | permissionDenied
  | repo (e : RepoError)
  deriving DecidableEq, Repr

/-- Run the repository update from the UI handler, pairing the result with
the store after the call: on failure the store is the unchanged input. -/
def runStatusUpdate (pstore : Store PIR) (id : String) (status : PIRStatus)
    (extra : PIRPartial) (now : Nat) : Except UIError PIR × Store PIR :=
  match updatePIRStatus pstore id status extra now with
  | Except.error e => (Except.error (UIError.repo e), pstore)
  | Except.ok (s', p') => (Except.ok p', s')

/-- handleStatusChange from PIRDetail.tsx (lines 42-77): builds the
additionalData for the target status — reviewerId/reviewerName of the
acting user when entering Reviewed — and, for Accepted/Rejected, throws a
permission error before calling updatePIRStatus unless the actor is Admin
or equals the PIR's reviewerId. -/
def handleStatusChange (pstore : Store PIR) (pir : PIR) (u : User)
    (newStatus : PIRStatus) (now : Nat) : Except UIError PIR × Store PIR :=
  match newStatus with
  | PIRStatus.reviewed =>
      runStatusUpdate pstore pir.id newStatus
        { reviewerId := some u.id, reviewerName := some u.displayName } now
  | PIRStatus.accepted =>
      if u.role ≠ UserRole.admin ∧ pir.reviewerId ≠ some u.id then
        (Except.error UIError.permissionDenied, pstore)
      else
        runStatusUpdate pstore pir.id newStatus {} now
  | PIRStatus.rejected =>
      if u.role ≠ UserRole.admin ∧ pir.reviewerId ≠ some u.id then
        (Except.error UIError.permissionDenied, pstore)
      else
        runStatusUpdate pstore pir.id newStatus {} now
  | _ => runStatusUpdate pstore pir.id newStatus {} now

/-- canEdit from PIRDetail.tsx (line 133). -/
def canEdit (u : User) (p : PIR) : Bool :=
  u.role == UserRole.admin ||
    (u.id == p.requesterId && p.status == PIRStatus.draft)

/-- canRequest from PIRDetail.tsx (line 138). -/
def canRequest (u : User) (p : PIR) : Bool :=
  p.status == PIRStatus.draft &&
    (u.role == UserRole.admin || u.id == p.requesterId)

/-- canSubmit from PIRDetail.tsx (line 142). -/
def canSubmit (u : User) (p : PIR) : Bool :=
  p.status == PIRStatus.requested &&
    (u.role == UserRole.admin || some u.id == p.assignedResponderId)

/-- canReview from PIRDetail.tsx (line 146). -/
def canReview (u : User) (p : PIR) : Bool :=
  p.status == PIRStatus.submitted &&
    (u.role == UserRole.admin || u.role == UserRole.reviewer)

/-- canAcceptReject from PIRDetail.tsx (line 150). -/
def canAcceptReject (u : User) (p : PIR) : Bool :=
  p.status == PIRStatus.reviewed &&
    (u.role == UserRole.admin || some u.id == p.reviewerId)

/-- The permitted-action set of the Permission Resolver. -/
structure ActionSet where
  edit : Bool
  request : Bool
  submit : Bool
  review : Bool
  acceptReject : Bool
  deriving DecidableEq, Repr

/-- Modelled from the spec section 4.3: pure function resolveActions(user,
pir), each action written from the spec's own wording.  Used only as the
specification side of the refinement claim about the PIRDetail
predicates. -/
def resolveActions (u : User) (p : PIR) : ActionSet where
  edit := u.role == UserRole.admin ||
    (u.id == p.requesterId && p.status == PIRStatus.draft)
  request := p.status == PIRStatus.draft &&
    (u.role == UserRole.admin || u.id == p.requesterId)
  submit := p.status == PIRStatus.requested &&
    (u.role == UserRole.admin || some u.id == p.assignedResponderId)
  review := p.status == PIRStatus.submitted &&
    (u.role == UserRole.admin || u.role == UserRole.reviewer)
  acceptReject := p.status == PIRStatus.reviewed &&
    (u.role == UserRole.admin || some u.id == p.reviewerId)

/-- createQuestion from the question repository (attachmentRepository.ts,
question section, lines 726-753): addDoc into the questions collection;
no other collection is touched. -/
def createQuestion (qstore : Store Question) (pirId text category : String)
    (required : Bool) (createdBy : String) (attachmentIds : List String)
    (freshId : String) (now : Nat) : Store Question × Question :=
  let q : Question :=
    { id := freshId, pirId := pirId, text := text, category := category
      required := required, createdAt := now, updatedAt := now
      createdBy := createdBy, attachmentIds := attachmentIds }
  (Store.addEntry qstore freshId q, q)

/-- addQuestionToPIR from the PIR repository (lines 536-548): updateDoc
with questionIds arrayUnion.  Defined in the repository but not invoked
by any caller in the repository's sources. -/
def addQuestionToPIR (pstore : Store PIR) (pirId questionId : String)
    (now : Nat) : Except RepoError (Store PIR) :=
  match Store.lookup pstore pirId with
  | none => Except.error RepoError.notFound
  | some p =>
      Except.ok (Store.setEntry pstore pirId
        { p with questionIds := arrayUnion p.questionIds questionId
                 updatedAt := now })

/-- The whole question-creation operation as the application performs it
(QuestionAnswerList handleSubmit → store createQuestion → repository
createQuestion): the question document is created; the PIR store is
passed through untouched because no call site invokes addQuestionToPIR. -/
def createQuestionFlow (pstore : Store PIR) (qstore : Store Question)
    (pirId text category : String) (required : Bool) (createdBy : String)
    (freshId : String) (now : Nat) :
    Store PIR × Store Question × Question :=
  let (qstore', q) :=
    createQuestion qstore pirId text category required createdBy [] freshId now
  (pstore, qstore', q)

/-- getAllTags from the tag repository (lines 847-872): all tag documents
ordered by name ascending. -/
def getAllTags (store : Store Tag) : List Tag :=
  (store.map Prod.snd).mergeSort (fun a b => decide (a.name ≤ b.name))

/-- JavaScript String.toLowerCase, character-wise over the string's
characters. -/
def lowercase (s : String) : String := String.mk (s.data.map Char.toLower)

/-- searchTagsByName from the tag repository (lines 932-948): fetch all
tags and keep those whose lower-cased name contains the lower-cased
search term as a substring. -/
def searchTagsByName (store : Store Tag) (term : String) : List Tag :=
  (getAllTags store).filter
    (fun t => decide (List.IsInfix (lowercase term).data
      (lowercase t.name).data))

/-- createTag from the tag repository (lines 953-978): search for an
existing tag whose lower-cased name equals the lower-cased input name;
return it unchanged if found, otherwise addDoc the new tag. -/
def createTag (store : Store Tag) (name : String)
    (category color : Option String) (freshId : String) : Tag × Store Tag :=
  let existingTags := searchTagsByName store name
  match existingTags.find? (fun t => lowercase t.name == lowercase name) with
  | some t => (t, store)
  | none =>
      let t : Tag := { id := freshId, name := name, category := category
                       color := color }
      (t, Store.addEntry store freshId t)

/-- getAttachmentById from the attachment repository (lines 66-85). -/
def getAttachmentById (store : Store Attachment) (id : String) :
    Option Attachment :=
  Store.lookup store id

/-- uploadAttachment from the attachment repository (lines 135-179): the
blob-store write (uploadBytes + getDownloadURL, summarized as blobResult)
happens first; only on its success is the metadata document created.  On
blob failure the caught error is rethrown and the store is unchanged. -/
def uploadAttachment (store : Store Attachment)
    (blobResult : Except Unit String) (fileName fileType : String)
    (fileSize : Nat) (uploadedBy parentId : String) (parentType : ParentType)
    (freshId : String) (now : Nat) :
    Except RepoError Attachment × Store Attachment :=
  match blobResult with
  | Except.error _ => (Except.error RepoError.dependencyFailure, store)
  | Except.ok url =>
      let a : Attachment :=
        { id := freshId, fileName := fileName, fileType := fileType
          fileSize := fileSize, uploadedBy := uploadedBy, uploadedAt := now
          parentId := parentId, parentType := parentType, downloadUrl := url }
      (Except.ok a, Store.addEntry store freshId a)

/-- deleteAttachment from the attachment repository (lines 184-209): fail
with not-found when the id is absent; otherwise attempt the blob delete
(whose failure is caught and logged, blobDeleteOk records its outcome)
and delete the metadata document regardless. -/
def deleteAttachment (store : Store Attachment) (id : String)
    (_blobDeleteOk : Bool) : Except RepoError Unit × Store Attachment :=
  match Store.lookup store id with
  | none => (Except.error RepoError.notFound, store)
  | some _ => (Except.ok (), Store.removeEntry store id)

/-- The admin email list built by onPIRStatusChange
(email-notifications.ts): users with role admin, mapped to email. -/
def adminEmails (users : Store User) : List String :=
  ((users.map Prod.snd).filter (fun u => u.role == UserRole.admin)).map
    (fun u => u.email)

/-- JavaScript Array.filter(Boolean) over a list of possibly-undefined
strings: drops undefined entries and empty strings. -/
def filterTruthy (xs : List (Option String)) : List String :=
  (xs.filterMap id).filter (fun s => !(s == ""))

/-- The recipient list built by the Submitted branch of onPIRStatusChange
(email-notifications.ts lines 552-567): the JavaScript array
[reviewer.email, requester?.email, ...adminEmails].filter(Boolean). -/
def submittedRecipients (users : Store User) (after : PIR) (rv : User) :
    List String :=
  filterTruthy (some rv.email ::
    (Store.lookup users after.requesterId).map User.email ::
    (adminEmails users).map some)

/-- onPIRStatusChange from functions/src (lines 500-610): on a PIR
document update, skip when status is unchanged, otherwise resolve the
requester, assigned responder, reviewer and admin users and return the
one email send that is invoked — the target status together with its
recipient list — or none when no send happens. -/
def onPIRStatusChange (users : Store User) (before after : PIR) :
    Option (PIRStatus × List String) :=
  if before.status == after.status then none
  else
    let requesterU := Store.lookup users after.requesterId
    let responderU := after.assignedResponderId.bind
      (fun rid => Store.lookup users rid)
    let reviewerU := after.reviewerId.bind (fun rid => Store.lookup users rid)
    let admins := adminEmails users
    match after.status with
    | PIRStatus.requested =>
        some (PIRStatus.requested,
          match responderU with
          | some r => r.email :: admins
          | none => admins)
    | PIRStatus.submitted =>
        match reviewerU with
        | some rv => some (PIRStatus.submitted, submittedRecipients users after rv)
        | none => none
    | PIRStatus.reviewed =>
        some (PIRStatus.reviewed,
          filterTruthy [requesterU.map User.email, responderU.map User.email])
    | PIRStatus.accepted =>
        some (PIRStatus.accepted,
          filterTruthy [requesterU.map User.email, responderU.map User.email])
    | PIRStatus.rejected =>
        some (PIRStatus.rejected,
          filterTruthy [requesterU.map User.email, responderU.map User.email])
    | PIRStatus.draft => none

/-- The authenticated identity delivered by the identity provider
(firebase auth currentUser): uid plus possibly-missing email and
displayName. -/
structure FirebaseUser where
  uid : String
  email : Option String
  displayName : Option String
  deriving DecidableEq, Repr

/-- The slice state touched by loadUserData in src/store/userSlice.ts. -/
structure SessionState where
  currentUser : Option User
  isAuthenticated : Bool
  isLoading : Bool
  authError : Option String
  deriving DecidableEq, Repr

/-- loadUserData from src/store/userSlice.ts (lines 162-209): with no
authenticated user, clear the session; with one, load the user document,
or — when it is absent — create a default document with role Requester
and email/displayName defaulting to the empty string, and mark the
session authenticated either way. -/
def loadUserData (authUser : Option FirebaseUser) (users : Store User)
    (st : SessionState) : SessionState × Store User :=
  match authUser with
  | none =>
      ({ st with currentUser := none, isAuthenticated := false
                 isLoading := false }, users)
  | some fu =>
      match Store.lookup users fu.uid with
      | some u =>
          ({ st with currentUser := some u, isAuthenticated := true
                     isLoading := false, authError := none }, users)
      | none =>
          let d : User :=
            { id := fu.uid, email := fu.email.getD ""
              displayName := fu.displayName.getD ""
              role := UserRole.requester, department := none }
          ({ st with currentUser := some d, isAuthenticated := true
                     isLoading := false, authError := none },
           Store.addEntry users fu.uid d)

/-! Helper lemmas about the store model. -/

theorem Store.lookup_addEntry_self {α : Type} (s : Store α) (id : String)
    (v : α) (h : Store.lookup s id = none) :
    Store.lookup (Store.addEntry s id v) id = some v := by
  induction s with
  | nil => simp [Store.addEntry, Store.lookup]
  | cons kv rest ih =>
      by_cases hk : kv.1 = id
      · simp [Store.lookup, hk] at h
      · simp only [Store.addEntry, Store.lookup, List.cons_append] at *
        simp [hk] at h ⊢
        exact ih h

theorem Store.lookup_removeEntry_self {α : Type} (s : Store α) (id : String) :
    Store.lookup (Store.removeEntry s id) id = none := by
  induction s with
  | nil => rfl
  | cons kv rest ih =>
      by_cases hk : kv.1 = id
      · simp [Store.removeEntry, List.filter, hk] at ih ⊢
        exact ih
      · simp only [Store.removeEntry, List.filter] at ih ⊢
        have : (kv.1 == id) = false := by simp [hk]
        simp [this, Store.lookup, hk]
        exact ih

/-! Concrete documents used by counterexamples and witnesses. -/

/-- A PIR document in the terminal status Accepted. -/
def pirAccepted : PIR :=
  { id := "p1", title := "t", description := "d"
    status := PIRStatus.accepted, requesterId := "u1", requesterName := "R"
    productName := "pn", productCategory := "pc", createdAt := 1
    updatedAt := 1 }

/-- A one-document PIR store holding pirAccepted under id p1. -/
def storeAccepted : Store PIR := [("p1", pirAccepted)]

/-- A PIR document in status Requested with an assigned responder. -/
def pirRequested : PIR :=
  { id := "p2", title := "t", description := "d"
    status := PIRStatus.requested, requesterId := "u1", requesterName := "R"
    assignedResponderId := some "u2", assignedResponderName := some "S"
    productName := "pn", productCategory := "pc", createdAt := 1
    updatedAt := 2 }

/-- The responder assigned to pirRequested. -/
def responderUser : User :=
  { id := "u2", email := "s@x", displayName := "S"
    role := UserRole.responder }

/-- C1: the claim says every (from, to) pair outside the section 4.1
table — (Accepted, Draft) among them — makes the status update fail with
InvalidTransition and leave the document unmodified.  At this concrete
input the pair is not in the table, yet updatePIRStatus succeeds and
rewrites the stored document, so the claim as stated is false. -/
theorem C1_counterexample :
    validTransition PIRStatus.accepted PIRStatus.draft = false ∧
    updatePIRStatus storeAccepted "p1" PIRStatus.draft {} 5 =
      Except.ok
        ([("p1", { pirAccepted with status := PIRStatus.draft, updatedAt := 5 })],
          { pirAccepted with status := PIRStatus.draft, updatedAt := 5 }) ∧
    ({ pirAccepted with status := PIRStatus.draft, updatedAt := 5 } : PIR) ≠
      pirAccepted := by
  refine ⟨rfl, rfl, by decide⟩

/-- C1 amended: updatePIRStatus performs no transition-table,
self-transition or permission validation at all — for every stored PIR and
every target status (valid, invalid, or equal to the current status) it
succeeds and writes the merged update; its only failure is not-found for
an absent id. -/
theorem C1_amended (store : Store PIR) (id : String) (p : PIR)
    (status : PIRStatus) (extra : PIRPartial) (now : Nat)
    (h : Store.lookup store id = some p) :
    updatePIRStatus store id status extra now =
      Except.ok (Store.setEntry store id (applyStatusUpdate p status extra now),
        applyStatusUpdate p status extra now) ∧
    (applyStatusUpdate p status extra now).status = status ∧
    (∀ s2 : Store PIR, Store.lookup s2 id = none →
      updatePIRStatus s2 id status extra now = Except.error RepoError.notFound) := by
  refine ⟨by simp [updatePIRStatus, h], ?_, ?_⟩
  · cases status <;> simp [applyStatusUpdate]
  · intro s2 h2
    simp [updatePIRStatus, h2]

/-- C1 amended, applied at a concrete input: the self-transition
(Accepted → Accepted) succeeds instead of being rejected. -/
theorem C1_amended_witness :
    Store.lookup storeAccepted "p1" = some pirAccepted ∧
    (updatePIRStatus storeAccepted "p1" PIRStatus.accepted {} 9 =
      Except.ok
        (Store.setEntry storeAccepted "p1"
          (applyStatusUpdate pirAccepted PIRStatus.accepted {} 9),
          applyStatusUpdate pirAccepted PIRStatus.accepted {} 9) ∧
      (applyStatusUpdate pirAccepted PIRStatus.accepted {} 9).status =
        PIRStatus.accepted ∧
      (∀ s2 : Store PIR, Store.lookup s2 "p1" = none →
        updatePIRStatus s2 "p1" PIRStatus.accepted {} 9 =
          Except.error RepoError.notFound)) :=
  ⟨by decide, C1_amended storeAccepted "p1" pirAccepted PIRStatus.accepted {} 9
    (by decide)⟩

/-- C2: for every valid transition of the table performed by a permitted
actor, updatePIRStatus succeeds, sets status to the target, sets exactly
the one lifecycle timestamp of the target status together with updatedAt,
and leaves every other lifecycle timestamp and every field not named in
the update unchanged (reviewerId/reviewerName change only when the
additionalData names them). -/
theorem C2_transition_effects (store : Store PIR) (id : String) (p : PIR)
    (u : User) (tgt : PIRStatus) (extra : PIRPartial) (now : Nat)
    (hfound : Store.lookup store id = some p)
    (hvalid : validTransition p.status tgt = true)
    (hperm : specPermittedActor u p tgt = true) :
    updatePIRStatus store id tgt extra now =
      Except.ok (Store.setEntry store id (applyStatusUpdate p tgt extra now),
        applyStatusUpdate p tgt extra now) ∧
    (applyStatusUpdate p tgt extra now).status = tgt ∧
    (applyStatusUpdate p tgt extra now).updatedAt = now ∧
    ((tgt = PIRStatus.submitted →
        (applyStatusUpdate p tgt extra now).submittedAt = some now) ∧
      (tgt ≠ PIRStatus.submitted →
        (applyStatusUpdate p tgt extra now).submittedAt = p.submittedAt)) ∧
    ((tgt = PIRStatus.reviewed →
        (applyStatusUpdate p tgt extra now).reviewedAt = some now) ∧
      (tgt ≠ PIRStatus.reviewed →
        (applyStatusUpdate p tgt extra now).reviewedAt = p.reviewedAt)) ∧
    ((tgt = PIRStatus.accepted →
        (applyStatusUpdate p tgt extra now).acceptedAt = some now) ∧
      (tgt ≠ PIRStatus.accepted →
        (applyStatusUpdate p tgt extra now).acceptedAt = p.acceptedAt)) ∧
    ((tgt = PIRStatus.rejected →
        (applyStatusUpdate p tgt extra now).rejectedAt = some now) ∧
      (tgt ≠ PIRStatus.rejected →
        (applyStatusUpdate p tgt extra now).rejectedAt = p.rejectedAt)) ∧
    (applyStatusUpdate p tgt extra now).title = p.title ∧
    (applyStatusUpdate p tgt extra now).description = p.description ∧
    (applyStatusUpdate p tgt extra now).productName = p.productName ∧
    (applyStatusUpdate p tgt extra now).productCategory = p.productCategory ∧
    (applyStatusUpdate p tgt extra now).requesterId = p.requesterId ∧
    (applyStatusUpdate p tgt extra now).requesterName = p.requesterName ∧
    (applyStatusUpdate p tgt extra now).assignedResponderId =
      p.assignedResponderId ∧
    (applyStatusUpdate p tgt extra now).assignedResponderName =
      p.assignedResponderName ∧
    (applyStatusUpdate p tgt extra now).createdAt = p.createdAt ∧
    (applyStatusUpdate p tgt extra now).completionDeadline =
      p.completionDeadline ∧
    (applyStatusUpdate p tgt extra now).tags = p.tags ∧
    (applyStatusUpdate p tgt extra now).questionIds = p.questionIds ∧
    (applyStatusUpdate p tgt extra now).attachmentIds = p.attachmentIds ∧
    (applyStatusUpdate p tgt extra now).comments = p.comments ∧
    (applyStatusUpdate p tgt extra now).reviewNotes = p.reviewNotes ∧
    (applyStatusUpdate p tgt extra now).reviewerId =
      (match extra.reviewerId with
        | some v => some v
        | none => p.reviewerId) ∧
    (applyStatusUpdate p tgt extra now).reviewerName =
      (match extra.reviewerName with
        | some v => some v
        | none => p.reviewerName) := by
  refine ⟨by simp [updatePIRStatus, hfound], ?_⟩
  cases tgt <;> simp [applyStatusUpdate]

/-- C2 applied at a concrete input: the Requested → Submitted transition
performed by the assigned responder stamps submittedAt and leaves the
other lifecycle timestamps unchanged. -/
theorem C2_transition_effects_witness :
    (Store.lookup [("p2", pirRequested)] "p2" = some pirRequested ∧
      validTransition pirRequested.status PIRStatus.submitted = true ∧
      specPermittedActor responderUser pirRequested PIRStatus.submitted = true) ∧
    (applyStatusUpdate pirRequested PIRStatus.submitted {} 6).status =
      PIRStatus.submitted ∧
    (applyStatusUpdate pirRequested PIRStatus.submitted {} 6).submittedAt =
      some 6 := by
  refine ⟨⟨by decide, by decide, by decide⟩, ?_, ?_⟩
  · exact (C2_transition_effects [("p2", pirRequested)] "p2" pirRequested
      responderUser PIRStatus.submitted {} 6 (by decide) (by decide)
      (by decide)).2.1
  · exact ((C2_transition_effects [("p2", pirRequested)] "p2" pirRequested
      responderUser PIRStatus.submitted {} 6 (by decide) (by decide)
      (by decide)).2.2.2.1).1 rfl

/-- C3: for a PIR in status Reviewed, an attempted transition to Accepted
or Rejected by an actor who is neither an Admin nor the PIR's reviewerId
fails with the permission error before the repository call, so the store
is returned unchanged. -/
theorem C3_accept_reject_permission (pstore : Store PIR) (pir : PIR)
    (u : User) (newStatus : PIRStatus) (now : Nat)
    (hst : pir.status = PIRStatus.reviewed)
    (hns : newStatus = PIRStatus.accepted ∨ newStatus = PIRStatus.rejected)
    (hrole : u.role ≠ UserRole.admin)
    (hrev : pir.reviewerId ≠ some u.id) :
    handleStatusChange pstore pir u newStatus now =
      (Except.error UIError.permissionDenied, pstore) := by
  rcases hns with h | h <;> subst h <;>
    simp [handleStatusChange, hrole, hrev]

/-- A PIR document in status Reviewed with reviewer rv1. -/
def pirReviewed : PIR :=
  { id := "p3", title := "t", description := "d"
    status := PIRStatus.reviewed, requesterId := "u1", requesterName := "R"
    assignedResponderId := some "u2", assignedResponderName := some "S"
    reviewerId := some "rv1", reviewerName := some "V"
    productName := "pn", productCategory := "pc", createdAt := 1
    updatedAt := 3 }

/-- A requester-role user who is not pirReviewed's reviewer. -/
def otherUser : User :=
  { id := "u9", email := "o@x", displayName := "O"
    role := UserRole.requester }

/-- C3 applied at a concrete input: a requester who is not the fixed
reviewer cannot accept the reviewed PIR. -/
theorem C3_accept_reject_permission_witness :
    (pirReviewed.status = PIRStatus.reviewed ∧
      (PIRStatus.accepted = PIRStatus.accepted ∨
        PIRStatus.accepted = PIRStatus.rejected) ∧
      otherUser.role ≠ UserRole.admin ∧
      pirReviewed.reviewerId ≠ some otherUser.id) ∧
    handleStatusChange [("p3", pirReviewed)] pirReviewed otherUser
      PIRStatus.accepted 8 =
      (Except.error UIError.permissionDenied, [("p3", pirReviewed)]) :=
  ⟨⟨by decide, Or.inl rfl, by decide, by decide⟩,
    C3_accept_reject_permission [("p3", pirReviewed)] pirReviewed otherUser
      PIRStatus.accepted 8 (by decide) (Or.inl rfl) (by decide) (by decide)⟩

/-- C4: the five permission predicates computed in PIRDetail are
extensionally equal to the spec's resolveActions on every user and PIR. -/
theorem C4_resolveActions_eq (u : User) (p : PIR) :
    resolveActions u p =
      { edit := canEdit u p, request := canRequest u p
        submit := canSubmit u p, review := canReview u p
        acceptReject := canAcceptReject u p } := rfl

/-- A PIR document in status Draft with an empty questionIds list. -/
def pirDraft : PIR :=
  { id := "p4", title := "t", description := "d"
    status := PIRStatus.draft, requesterId := "u1", requesterName := "R"
    productName := "pn", productCategory := "pc", createdAt := 1
    updatedAt := 1 }

/-- C5: the spec requires that creating a Question under PIR P registers
the new Question's id in P.questionIds as part of the same logical
operation.  The repository defines addQuestionToPIR for exactly this, but
no call site invokes it: at this concrete input the question document q1
referencing p4 is created while p4's questionIds stays empty, leaving the
child unregistered. -/
theorem C5_question_not_registered :
    (createQuestionFlow [("p4", pirDraft)] [] "p4" "q" "c" true "u1" "q1" 7).1 =
      [("p4", pirDraft)] ∧
    Store.lookup
      (createQuestionFlow [("p4", pirDraft)] [] "p4" "q" "c" true "u1" "q1" 7).2.1
      "q1" =
      some { id := "q1", pirId := "p4", text := "q", category := "c"
             required := true, createdAt := 7, updatedAt := 7
             createdBy := "u1", attachmentIds := [] } ∧
    (Store.lookup
      (createQuestionFlow [("p4", pirDraft)] [] "p4" "q" "c" true "u1" "q1" 7).1
      "p4").map PIR.questionIds = some [] := by
  refine ⟨rfl, by decide, by decide⟩

/-- C7: uploadAttachment writes the blob first and creates the metadata
document only after that write (and the download-URL resolution)
succeeded; when the blob step fails, the error is rethrown and the
attachments store is unchanged, and only on success is the metadata
record appended. -/
theorem C7_upload_blob_order (store : Store Attachment)
    (fileName fileType : String) (fileSize : Nat)
    (uploadedBy parentId : String) (parentType : ParentType)
    (freshId : String) (now : Nat) :
    uploadAttachment store (Except.error ()) fileName fileType fileSize
        uploadedBy parentId parentType freshId now =
      (Except.error RepoError.dependencyFailure, store) ∧
    (∀ url : String,
      uploadAttachment store (Except.ok url) fileName fileType fileSize
          uploadedBy parentId parentType freshId now =
        (Except.ok
          { id := freshId, fileName := fileName, fileType := fileType
            fileSize := fileSize, uploadedBy := uploadedBy, uploadedAt := now
            parentId := parentId, parentType := parentType
            downloadUrl := url },
          Store.addEntry store freshId
            { id := freshId, fileName := fileName, fileType := fileType
              fileSize := fileSize, uploadedBy := uploadedBy, uploadedAt := now
              parentId := parentId, parentType := parentType
              downloadUrl := url })) :=
  ⟨rfl, fun _ => rfl⟩

/-- C8: deleteAttachment on a present id succeeds and removes the
metadata record even when the blob delete failed (blobDeleteOk = false is
caught and logged), so the attachment is no longer retrievable by id;
on an absent id it fails with the not-found error and changes nothing. -/
theorem C8_delete_attachment (store : Store Attachment) (id : String)
    (b : Bool) (a : Attachment)
    (h : Store.lookup store id = some a) :
    (deleteAttachment store id b).1 = Except.ok () ∧
    getAttachmentById (deleteAttachment store id b).2 id = none ∧
    (∀ s2 : Store Attachment, Store.lookup s2 id = none →
      deleteAttachment s2 id b = (Except.error RepoError.notFound, s2)) := by
  refine ⟨?_, ?_, ?_⟩
  · simp [deleteAttachment, h]
  · simp [deleteAttachment, h, getAttachmentById,
      Store.lookup_removeEntry_self]
  · intro s2 h2
    simp [deleteAttachment, h2]

/-- A concrete attachment document under id a1. -/
def attachmentDoc : Attachment :=
  { id := "a1", fileName := "f.pdf", fileType := "application/pdf"
    fileSize := 10, uploadedBy := "u1", uploadedAt := 4, parentId := "p1"
    parentType := ParentType.pir, downloadUrl := "u" }

/-- C8 applied at a concrete input with a failing blob delete: the record
is removed anyway and the id resolves to nothing afterwards. -/
theorem C8_delete_attachment_witness :
    Store.lookup [("a1", attachmentDoc)] "a1" = some attachmentDoc ∧
    ((deleteAttachment [("a1", attachmentDoc)] "a1" false).1 =
        Except.ok () ∧
      getAttachmentById (deleteAttachment [("a1", attachmentDoc)] "a1" false).2
        "a1" = none ∧
      (∀ s2 : Store Attachment, Store.lookup s2 "a1" = none →
        deleteAttachment s2 "a1" false =
          (Except.error RepoError.notFound, s2))) :=
  ⟨by decide,
    C8_delete_attachment [("a1", attachmentDoc)] "a1" false attachmentDoc
      (by decide)⟩

/-- C10: when the authenticated identity has no user document,
loadUserData silently creates a default document — role Requester, email
and displayName defaulting to the empty string — stores it under the uid,
and marks the session authenticated. -/
theorem C10_default_user_created (fu : FirebaseUser) (users : Store User)
    (st : SessionState)
    (h : Store.lookup users fu.uid = none) :
    ((loadUserData (some fu) users st).1).isAuthenticated = true ∧
    ((loadUserData (some fu) users st).1).currentUser =
      some { id := fu.uid, email := fu.email.getD ""
             displayName := fu.displayName.getD ""
             role := UserRole.requester, department := none } ∧
    Store.lookup (loadUserData (some fu) users st).2 fu.uid =
      some { id := fu.uid, email := fu.email.getD ""
             displayName := fu.displayName.getD ""
             role := UserRole.requester, department := none } := by
  refine ⟨?_, ?_, ?_⟩
  · simp [loadUserData, h]
  · simp [loadUserData, h]
  · simp only [loadUserData, h]
    exact Store.lookup_addEntry_self users fu.uid _ h

/-- C10 applied at a concrete input: an authenticated uid with no email,
no displayName and no user document gets the default Requester record. -/
theorem C10_default_user_created_witness :
    Store.lookup ([] : Store User) (FirebaseUser.mk "u7" none none).uid = none ∧
    (((loadUserData (some (FirebaseUser.mk "u7" none none)) ([] : Store User)
        (SessionState.mk none false true none)).1).isAuthenticated = true ∧
      ((loadUserData (some (FirebaseUser.mk "u7" none none)) ([] : Store User)
        (SessionState.mk none false true none)).1).currentUser =
        some { id := "u7", email := "", displayName := ""
               role := UserRole.requester, department := none } ∧
      Store.lookup (loadUserData (some (FirebaseUser.mk "u7" none none)) ([] : Store User)
        (SessionState.mk none false true none)).2 "u7" =
        some { id := "u7", email := "", displayName := ""
               role := UserRole.requester, department := none }) :=
  ⟨rfl,
    C10_default_user_created (FirebaseUser.mk "u7" none none) ([] : Store User)
      (SessionState.mk none false true none) rfl⟩

/-- C9: createTag is idempotent under case-insensitive name match — when
some stored tag's name equals the input name ignoring case, createTag
returns a tag already in the collection with that name, the collection
gains no new record, and when the match is unique (as after a successful
creation) the returned tag is exactly that tag. -/
theorem C9_createTag_idempotent (store : Store Tag) (name : String)
    (c k : Option String) (f : String)
    (h : ∃ t0 ∈ store.map Prod.snd, lowercase t0.name = lowercase name) :
    (createTag store name c k f).2 = store ∧
    (createTag store name c k f).1 ∈ store.map Prod.snd ∧
    lowercase ((createTag store name c k f).1).name = lowercase name ∧
    (∀ t : Tag, t ∈ store.map Prod.snd → lowercase t.name = lowercase name →
      (∀ t2 ∈ store.map Prod.snd,
        lowercase t2.name = lowercase name → t2 = t) →
      (createTag store name c k f).1 = t) := by
  obtain ⟨t0, ht0mem, ht0name⟩ := h
  have hall : t0 ∈ getAllTags store :=
    (List.mergeSort_perm (store.map Prod.snd) _).mem_iff.mpr ht0mem
  have hfilt : t0 ∈ searchTagsByName store name := by
    unfold searchTagsByName
    refine List.mem_filter.mpr ⟨hall, ?_⟩
    rw [ht0name]
    exact decide_eq_true (List.infix_refl _)
  have hex : ((searchTagsByName store name).find?
      (fun t => lowercase t.name == lowercase name)).isSome := by
    refine List.find?_isSome.mpr ⟨t0, hfilt, ?_⟩
    simp [ht0name]
  obtain ⟨res, hres⟩ := Option.isSome_iff_exists.mp hex
  have hresname : lowercase res.name = lowercase name := by
    have := List.find?_some hres
    simpa using this
  have hresmem : res ∈ searchTagsByName store name :=
    List.mem_of_find?_eq_some hres
  have hresall : res ∈ store.map Prod.snd := by
    unfold searchTagsByName at hresmem
    exact (List.mergeSort_perm (store.map Prod.snd) _).mem_iff.mp
      (List.mem_of_mem_filter hresmem)
  have hct : createTag store name c k f = (res, store) := by
    simp [createTag, hres]
  refine ⟨by rw [hct], by rw [hct]; exact hresall, by rw [hct]; exact hresname,
    ?_⟩
  intro t _ _ huniq
  rw [hct]
  exact huniq res hresall hresname

/-- The one-tag store produced by first creating the tag named Urgent. -/
def tagUrgent : Tag := { id := "t1", name := "Urgent" }

/-- C9 applied at a concrete input: creating URGENT after Urgent returns
the original tag and adds no record. -/
theorem C9_createTag_idempotent_witness :
    (∃ t0 ∈ ([("t1", tagUrgent)] : Store Tag).map Prod.snd,
      lowercase t0.name = lowercase "URGENT") ∧
    ((createTag [("t1", tagUrgent)] "URGENT" none none "t2").2 =
        [("t1", tagUrgent)] ∧
      (createTag [("t1", tagUrgent)] "URGENT" none none "t2").1 ∈
        ([("t1", tagUrgent)] : Store Tag).map Prod.snd ∧
      lowercase ((createTag [("t1", tagUrgent)] "URGENT" none none "t2").1).name =
        lowercase "URGENT" ∧
      (∀ t : Tag, t ∈ ([("t1", tagUrgent)] : Store Tag).map Prod.snd →
        lowercase t.name = lowercase "URGENT" →
        (∀ t2 ∈ ([("t1", tagUrgent)] : Store Tag).map Prod.snd,
          lowercase t2.name = lowercase "URGENT" → t2 = t) →
        (createTag [("t1", tagUrgent)] "URGENT" none none "t2").1 = t)) :=
  ⟨⟨tagUrgent, by decide, by decide⟩,
    C9_createTag_idempotent [("t1", tagUrgent)] "URGENT" none none "t2"
      ⟨tagUrgent, by decide, by decide⟩⟩

/-- The requester user in the notification scenario. -/
def userReq : User :=
  { id := "uq", email := "q@x", displayName := "Q", role := UserRole.requester }

/-- The reviewer user in the notification scenario. -/
def userRev : User :=
  { id := "ur", email := "r@x", displayName := "V", role := UserRole.reviewer }

/-- The admin user in the notification scenario. -/
def userAdm : User :=
  { id := "ua", email := "a@x", displayName := "A", role := UserRole.admin }

/-- The users collection in the notification scenario. -/
def usersSubmit : Store User :=
  [("uq", userReq), ("ur", userRev), ("ua", userAdm)]

/-- The PIR before the Requested → Submitted change. -/
def pirBeforeSubmit : PIR :=
  { id := "p5", title := "t", description := "d"
    status := PIRStatus.requested, requesterId := "uq", requesterName := "Q"
    reviewerId := some "ur", reviewerName := some "V"
    productName := "pn", productCategory := "pc", createdAt := 1
    updatedAt := 2 }

/-- The PIR after the Requested → Submitted change. -/
def pirAfterSubmit : PIR :=
  { pirBeforeSubmit with status := PIRStatus.submitted, updatedAt := 3 }

/-- C6: the claim says a change to Submitted notifies exactly the
assigned reviewer and the requester.  At this concrete input the resolved
recipient list also carries the admin's email a@x, which is neither the
reviewer's nor the requester's address, so the claim as stated is
false. -/
theorem C6_counterexample :
    onPIRStatusChange usersSubmit pirBeforeSubmit pirAfterSubmit =
      some (PIRStatus.submitted, ["r@x", "q@x", "a@x"]) ∧
    "a@x" ∈ ["r@x", "q@x", "a@x"] ∧
    userAdm.role = UserRole.admin ∧ userAdm.email = "a@x" ∧
    userRev.email = "r@x" ∧ userReq.email = "q@x" ∧
    "a@x" ≠ "r@x" ∧ "a@x" ≠ "q@x" := by decide

/-- C6 amended: when the status changes to Submitted and the reviewer is
resolvable, the one send's recipients are exactly the reviewer's email,
the requester's email (when the requester resolves, dropping empty
addresses) and the emails of all Admin-role users; when no reviewer is
resolvable, no send is invoked at all. -/
theorem C6_submitted_recipients (users : Store User) (before after : PIR)
    (hch : before.status ≠ after.status)
    (hs : after.status = PIRStatus.submitted) :
    (after.reviewerId.bind (fun rid => Store.lookup users rid) = none →
      onPIRStatusChange users before after = none) ∧
    (∀ rv : User,
      after.reviewerId.bind (fun rid => Store.lookup users rid) = some rv →
      onPIRStatusChange users before after =
        some (PIRStatus.submitted, submittedRecipients users after rv) ∧
      (∀ e : String, e ∈ submittedRecipients users after rv ↔
        (e ≠ "" ∧ (e = rv.email ∨
          (Store.lookup users after.requesterId).map User.email = some e ∨
          e ∈ adminEmails users)))) := by
  have hbeq : (before.status == after.status) = false := by
    simp [hch]
  have hch2 : ¬ before.status = PIRStatus.submitted := by
    rw [hs] at hch
    exact hch
  constructor
  · intro hnone
    simp [onPIRStatusChange, hbeq, hs, hnone]
  · intro rv hrv
    constructor
    · simp [onPIRStatusChange, hbeq, hs, hrv, hch2]
    · intro e
      simp only [submittedRecipients, filterTruthy, List.mem_filter,
        List.mem_filterMap, id_eq, List.mem_cons, List.mem_map,
        Bool.not_eq_eq_eq_not, Bool.not_true, beq_eq_false_iff_ne, ne_eq]
      constructor
      · rintro ⟨⟨a, ha, rfl⟩, hne⟩
        refine ⟨hne, ?_⟩
        rcases ha with h1 | h2 | ⟨b, hb, hb2⟩
        · exact Or.inl (Option.some.injEq .. ▸ h1.symm ▸ rfl)
        · exact Or.inr (Or.inl h2.symm)
        · cases hb2
          exact Or.inr (Or.inr hb)
      · rintro ⟨hne, h1 | h2 | h3⟩
        · exact ⟨⟨some e, Or.inl (by rw [h1]), rfl⟩, hne⟩
        · exact ⟨⟨some e, Or.inr (Or.inl h2.symm), rfl⟩, hne⟩
        · exact ⟨⟨some e, Or.inr (Or.inr ⟨e, h3, rfl⟩), rfl⟩, hne⟩

/-- C6 amended, applied at the concrete scenario: the send happens with
the reviewer resolvable and the recipient characterization holds. -/
theorem C6_submitted_recipients_witness :
    (pirBeforeSubmit.status ≠ pirAfterSubmit.status ∧
      pirAfterSubmit.status = PIRStatus.submitted) ∧
    ((pirAfterSubmit.reviewerId.bind
        (fun rid => Store.lookup usersSubmit rid) = none →
      onPIRStatusChange usersSubmit pirBeforeSubmit pirAfterSubmit = none) ∧
    (∀ rv : User,
      pirAfterSubmit.reviewerId.bind
        (fun rid => Store.lookup usersSubmit rid) = some rv →
      onPIRStatusChange usersSubmit pirBeforeSubmit pirAfterSubmit =
        some (PIRStatus.submitted,
          submittedRecipients usersSubmit pirAfterSubmit rv) ∧
      (∀ e : String,
        e ∈ submittedRecipients usersSubmit pirAfterSubmit rv ↔
        (e ≠ "" ∧ (e = rv.email ∨
          (Store.lookup usersSubmit pirAfterSubmit.requesterId).map
            User.email = some e ∨
          e ∈ adminEmails usersSubmit))))) :=
  ⟨⟨by decide, by decide⟩,
    C6_submitted_recipients usersSubmit pirBeforeSubmit pirAfterSubmit
      (by decide) (by decide)⟩

end PIRWorkflow
